import Mathlib

/-!
Verification of the `bugzilla` prow plugin
(`src/prow/plugins/bugzilla/bugzilla.go`).

The plugin's pure core is shallowly embedded: the title parser, the event
digester, the bug validator, the label reconciler and the merge tracker are
translated into executable Lean functions.  External collaborators (the
GitHub client, the Bugzilla client) are modelled as oracles: a record of
`Except`-valued results that the handler consumes, while every outward call
the handler issues (comments, label changes, tracker updates, the directory
query) is recorded in an ordered trace of `Effect`s.
-/

namespace Bugzilla

/-! ## Data model -/

/-- Modelled from the spec: the QA-contact detail attached to a tracker bug
(`bugzilla.Bug.QAContactDetail`, defined outside `src/`); the spec describes
it as an optional QA-contact email. -/
structure QAContactDetail where
  email : String
deriving DecidableEq

/-- Modelled from the spec: the tracker-side bug record (`bugzilla.Bug`,
defined outside `src/`): numeric id, open/closed flag, status + resolution,
target release list, dependency bug ids, optional QA contact. -/
structure Bug where
  id : Nat
  isOpen : Bool
  status : String
  resolution : String
  targetRelease : List String
  dependsOn : List Nat
  qaContactDetail : Option QAContactDetail
deriving DecidableEq

/-- Modelled from the spec: a tracker-side external-link record
(`bugzilla.ExternalBug`, defined outside `src/`): org, repo and
pull-request number recorded against a bug. -/
structure ExternalBug where
  org : String
  repo : String
  num : Nat
deriving DecidableEq

/-- Modelled from the spec: a bug state as configured in policy
(`plugins.BugzillaBugState`, defined outside `src/`): status plus
resolution. -/
structure BugzillaBugState where
  status : String
  resolution : String
deriving DecidableEq

/-- Modelled from the spec: the update sent to the tracker when moving a bug
to a configured state (`bugzilla.BugUpdate`, defined outside `src/`). -/
structure BugUpdate where
  status : String
  resolution : String
deriving DecidableEq

/-- Modelled from the spec: per-branch policy (`plugins.BugzillaBranchOptions`,
defined outside `src/`): all constraints and post-validation / post-merge
states are optional. -/
structure BugzillaBranchOptions where
  isOpen : Option Bool
  targetRelease : Option String
  validStates : Option (List BugzillaBugState)
  dependentBugStates : Option (List BugzillaBugState)
  dependentBugTargetRelease : Option String
  stateAfterValidation : Option BugzillaBugState
  stateAfterMerge : Option BugzillaBugState
  addExternalLink : Option Bool
  validateByDefault : Option Bool
deriving DecidableEq

/-- Modelled from the spec: `BugzillaBugState.Matches` is defined outside
`src/`; a state matches a bug when its status, when set, equals the bug
status and its resolution, when set, equals the bug resolution. -/
def BugzillaBugState.matchesBug (s : BugzillaBugState) (bug : Bug) : Bool :=
  (s.status = "" || s.status = bug.status) &&
    (s.resolution = "" || s.resolution = bug.resolution)

/-- Modelled from the spec: `BugzillaBugState.AsBugUpdate` is defined outside
`src/`; per the spec a configured state is "the state to move a bug to", so
the update carries the state's status and resolution. -/
def BugzillaBugState.asBugUpdate (s : BugzillaBugState) : BugUpdate :=
  { status := s.status, resolution := s.resolution }

/-- Modelled from the spec: Go's `%s` formatting of the `*BugzillaBugState`
pointer held in the options (used by the source in several messages) prints
the struct value as `&\x7bSTATUS RESOLUTION\x7d`. -/
def BugzillaBugState.display (s : BugzillaBugState) : String :=
  "&\x7b" ++ s.status ++ " " ++ s.resolution ++ "\x7d"

/-- Modelled from the spec: `bugzilla.PrettyStatus` is defined outside
`src/`; it renders "status + resolution", the resolution parenthesised when
present. -/
def prettyStatus (status resolution : String) : String :=
  if resolution = "" then status else status ++ " (" ++ resolution ++ ")"

/-- Modelled from the spec: the label constants `labels.ValidBug`
(defined outside `src/`). -/
def validBugLabel : String := "bugzilla/valid-bug"

/-- Modelled from the spec: the label constant `labels.InvalidBug`
(defined outside `src/`). -/
def invalidBugLabel : String := "bugzilla/invalid-bug"

/-! ## Title parsing

The source compiles `titleMatch = regexp.MustCompile("(?i)^.*?Bug ([0-9]+):")`
and calls `FindStringSubmatch`.  Because the pattern is anchored with `^` and
`.` does not match a newline, a match is the earliest position on the first
line of the title at which the case-insensitive literal `Bug ` is followed by
one or more digits and a colon; the capture is that digit run. -/

/-- Case-insensitive match of the literal `Bug ` (regex `(?i)Bug `) at the
head of the character list, returning the remainder. -/
def stripBugToken : List Char → Option (List Char)
  | b :: u :: g :: sp :: rest =>
    if (b = 'B' || b = 'b') && (u = 'U' || u = 'u') && (g = 'G' || g = 'g')
        && sp = ' ' then
      some rest
    else
      none
  | _ => none

/-- Maximal leading digit run (regex `[0-9]+` is greedy), with the rest. -/
def takeDigits : List Char → List Char × List Char
  | [] => ([], [])
  | c :: rest =>
    if c.isDigit then
      let p := takeDigits rest
      (c :: p.1, p.2)
    else
      ([], c :: rest)

/-- Numeric value of a digit run, as `strconv.Atoi` computes it.  The Go
code can additionally fail on 64-bit overflow, which `digestPR` treats as an
error; ids of that size do not occur and the overflow is not modelled. -/
def digitsToNat (ds : List Char) : Nat :=
  ds.foldl (fun n c => 10 * n + (c.toNat - '0'.toNat)) 0

/-- The whole regex at one position: `(?i)Bug ([0-9]+):`. -/
def matchAt (cs : List Char) : Option Nat :=
  match stripBugToken cs with
  | none => none
  | some rest =>
    let p := takeDigits rest
    if p.1 = [] then
      none
    else
      match p.2 with
      | ':' :: _ => some (digitsToNat p.1)
      | _ => none

/-- Leftmost match of `(?i)^.*?Bug ([0-9]+):`: try each position in turn;
the lazy `.*?` cannot cross a newline, so the scan stops at the first
newline. -/
def findTitleMatch : List Char → Option Nat
  | [] => none
  | c :: rest =>
    match matchAt (c :: rest) with
    | some n => some n
    | none => if c = '\n' then none else findTitleMatch rest

/-- `titleMatch.FindStringSubmatch` followed by `strconv.Atoi` on the
capture, as used by `digestPR` and `digestComment`. -/
def extractBugId (title : String) : Option Nat :=
  findTitleMatch title.data

/-! ## Event digester -/

/-- The pull-request actions distinguished by `digestPR`. -/
inductive PRAction where
  | opened
  | reopened
  | edited
  | closed
  | other
deriving DecidableEq

/-- The fields of `github.PullRequestEvent` read by `digestPR`.  `changes`
is the previous title: `none` models a `Changes` payload that fails to
unmarshal, `some prev` a parsed payload (an absent `title.from` field parses
as the empty string). -/
structure PullRequestEvent where
  action : PRAction
  merged : Bool
  state : String
  title : String
  org : String
  repo : String
  baseRef : String
  number : Nat
  htmlUrl : String
  login : String
  changes : Option String
deriving DecidableEq

/-- The canonical `event` record built by the digesters (source type
`event`). -/
structure event where
  org : String
  repo : String
  baseRef : String
  number : Nat
  bugId : Nat
  missing : Bool
  merged : Bool
  state : String
  body : String
  htmlUrl : String
  login : String
  assign : Bool
deriving DecidableEq

/-- `digestPR`: decides whether a pull-request event requires action and
builds the `event` for `handle`.  Mirrors the source line by line: the
action filter, bug extraction from the title, the `intermediate` event used
when the previous title is unavailable, and suppression when the previous
title references the same bug id. -/
def digestPR (pre : PullRequestEvent) (validateByDefault : Option Bool) :
    Option event :=
  if ¬(pre.action = PRAction.opened ∨ pre.action = PRAction.reopened ∨
      pre.action = PRAction.edited ∨
      (pre.action = PRAction.closed ∧ pre.merged = true)) then
    none
  else
    let e0 : event :=
      { org := pre.org, repo := pre.repo, baseRef := pre.baseRef,
        number := pre.number, bugId := 0, missing := false,
        merged := pre.merged, state := pre.state, body := pre.title,
        htmlUrl := pre.htmlUrl, login := pre.login, assign := false }
    let e : event :=
      match extractBugId pre.title with
      | none => { e0 with missing := true }
      | some id => { e0 with bugId := id }
    let intermediate : Option event :=
      if ¬e.missing ∨ validateByDefault = some true then some e else none
    match pre.changes with
    | none => intermediate
    | some prevTitle =>
      match extractBugId prevTitle with
      | none => intermediate
      | some prevId => if prevId = e.bugId then none else some e

/-! ## Bug validator (`validateBug`, source lines 550-654)

The source mutates `valid`, `validations` and `errors` in sequence; the
embedding threads a `Verdict` through one function per source block, applied
in source order. -/

/-- The validator result: the tuple `(valid, validations, errors)` returned
by `validateBug` (the spec's Verdict). -/
structure Verdict where
  valid : Bool
  validations : List String
  errors : List String
deriving DecidableEq

/-- `bugMatchesStates` (source lines 532-539). -/
def bugMatchesStates (bug : Bug) (states : List BugzillaBugState) : Bool :=
  states.any (fun s => s.matchesBug bug)

/-- `prettyStates` (source lines 541-547). -/
def prettyStates (statuses : List BugzillaBugState) : List String :=
  statuses.map (fun s => prettyStatus s.status s.resolution)

/-- `strings.Join(prettyStates(states), ", ")` as used in the messages. -/
def joinStates (states : List BugzillaBugState) : String :=
  String.intercalate (", ") (prettyStates states)

/-- The `bugLink` format constant (source line 48) applied to a bug id. -/
def bugLinkStr (endpoint : String) (bugId : Nat) : String :=
  "[Bugzilla bug " ++ toString bugId ++ "](" ++ endpoint ++
    "/show_bug.cgi?id=" ++ toString bugId ++ ")"

/-- The open/closed check (source lines 554-573). -/
def checkIsOpen (options : BugzillaBranchOptions) (bug : Bug) (v : Verdict) :
    Verdict :=
  match options.isOpen with
  | none => v
  | some o =>
    if o ≠ bug.isOpen then
      let notStr := if o then "" else "not "
      let wasStr := if o then "isn\x27t" else "is"
      { v with
          valid := false,
          errors := v.errors ++
          ["expected the bug to " ++ notStr ++ "be open, but it " ++ wasStr] }
    else
      let expected := if o then "open" else "not open"
      let wasStr := if bug.isOpen then "is" else "isn\x27t"
      { v with validations := v.validations ++
          ["bug " ++ wasStr ++ " open, matching expected state (" ++
            expected ++ ")"] }

/-- The target-release check (source lines 575-588). -/
def checkTargetRelease (options : BugzillaBranchOptions) (bug : Bug)
    (v : Verdict) : Verdict :=
  match options.targetRelease with
  | none => v
  | some r =>
    match bug.targetRelease with
    | [] =>
      { v with
          valid := false,
          errors := v.errors ++
          ["expected the bug to target the \"" ++ r ++
            "\" release, but no target release was set"] }
    | t :: _ =>
      if r ≠ t then
        { v with
        valid := false,
          errors := v.errors ++
            ["expected the bug to target the \"" ++ r ++
              "\" release, but it targets \"" ++ t ++ "\" instead"] }
      else
        { v with validations := v.validations ++
            ["bug target release (" ++ t ++
              ") matches configured target release for branch (" ++ r ++
              ")"] }

/-- The valid-states check (source lines 590-602): the accepted set is the
configured states union the post-validation state. -/
def checkValidStates (options : BugzillaBranchOptions) (bug : Bug)
    (v : Verdict) : Verdict :=
  match options.validStates with
  | none => v
  | some vs =>
    let allowed := vs ++
      (match options.stateAfterValidation with
       | none => []
       | some s => [s])
    if ¬bugMatchesStates bug allowed then
      { v with
          valid := false,
          errors := v.errors ++
          ["expected the bug to be in one of the following states: " ++
            joinStates allowed ++ ", but it is " ++
            prettyStatus bug.status bug.resolution ++ " instead"] }
    else
      { v with validations := v.validations ++
          ["bug is in the state " ++ prettyStatus bug.status bug.resolution ++
            ", which is one of the valid states (" ++ joinStates allowed ++
            ")"] }

/-- One iteration of the dependent-state loop (source lines 605-614). -/
def depStateStep (endpoint : String) (states : List BugzillaBugState)
    (v : Verdict) (dep : Bug) : Verdict :=
  if ¬bugMatchesStates dep states then
    { v with
        valid := false,
        errors := v.errors ++
        ["expected dependent " ++ bugLinkStr endpoint dep.id ++
          " to be in one of the following states: " ++ joinStates states ++
          ", but it is " ++ prettyStatus dep.status dep.resolution ++
          " instead"] }
  else
    { v with validations := v.validations ++
        ["dependent bug " ++ bugLinkStr endpoint dep.id ++
          " is in the state " ++ prettyStatus dep.status dep.resolution ++
          ", which is one of the valid states (" ++ joinStates states ++
          ")"] }

/-- The dependent-state check (source lines 604-615). -/
def checkDependentStates (options : BugzillaBranchOptions) (endpoint : String)
    (dependents : List Bug) (v : Verdict) : Verdict :=
  match options.dependentBugStates with
  | none => v
  | some states => dependents.foldl (depStateStep endpoint states) v

/-- One iteration of the dependent-target-release loop
(source lines 618-631). -/
def depReleaseStep (endpoint : String) (r : String) (v : Verdict)
    (dep : Bug) : Verdict :=
  match dep.targetRelease with
  | [] =>
    { v with
        valid := false,
        errors := v.errors ++
        ["expected dependent " ++ bugLinkStr endpoint dep.id ++
          " to target the \"" ++ r ++
          "\" release, but no target release was set"] }
  | t :: _ =>
    if r ≠ t then
      { v with
          valid := false,
          errors := v.errors ++
          ["expected dependent " ++ bugLinkStr endpoint dep.id ++
            " to target the \"" ++ r ++ "\" release, but it targets \"" ++
            t ++ "\" instead"] }
    else
      { v with validations := v.validations ++
          ["dependent " ++ bugLinkStr endpoint dep.id ++ " targets the \"" ++
            t ++ "\" release, matching the expected (" ++ r ++ ") release"] }

/-- The dependent-target-release check (source lines 617-632). -/
def checkDependentTargetRelease (options : BugzillaBranchOptions)
    (endpoint : String) (dependents : List Bug) (v : Verdict) : Verdict :=
  match options.dependentBugTargetRelease with
  | none => v
  | some r => dependents.foldl (depReleaseStep endpoint r) v

/-- The dependents-presence block (source lines 634-651): an empty
dependents list fails any configured dependent requirement; a nonempty one
records the validation "bug has dependents". -/
def checkDependentsPresence (options : BugzillaBranchOptions)
    (endpoint : String) (bug : Bug) (dependents : List Bug) (v : Verdict) :
    Verdict :=
  match dependents with
  | [] =>
    match options.dependentBugStates, options.dependentBugTargetRelease with
    | some ss, some r =>
      { v with
          valid := false,
          errors := v.errors ++
          ["expected " ++ bugLinkStr endpoint bug.id ++
            " to depend on a bug targeting the \"" ++ r ++
            "\" release and in one of the following states: " ++
            joinStates ss ++ ", but no dependents were found"] }
    | some ss, none =>
      { v with
          valid := false,
          errors := v.errors ++
          ["expected " ++ bugLinkStr endpoint bug.id ++
            " to depend on a bug in one of the following states: " ++
            joinStates ss ++ ", but no dependents were found"] }
    | none, some r =>
      { v with
          valid := false,
          errors := v.errors ++
          ["expected " ++ bugLinkStr endpoint bug.id ++
            " to depend on a bug targeting the \"" ++ r ++
            "\" release, but no dependents were found"] }
    | none, none => v
  | _ :: _ =>
    { v with validations := v.validations ++ ["bug has dependents"] }

/-- `validateBug` (source lines 550-654): the checks in source order,
starting from the valid, empty verdict. -/
def validateBug (bug : Bug) (dependents : List Bug)
    (options : BugzillaBranchOptions) (endpoint : String) : Verdict :=
  checkDependentsPresence options endpoint bug dependents
    (checkDependentTargetRelease options endpoint dependents
      (checkDependentStates options endpoint dependents
        (checkValidStates options bug
          (checkTargetRelease options bug
            (checkIsOpen options bug
              { valid := true, validations := [], errors := [] })))))

/-! ## External calls: effect trace and oracles

Every outward call `handle` issues is recorded in order.  The reply passed
to `CreateComment` is recorded as composed by this plugin; the source
additionally wraps it with `plugins.FormatResponseRaw` (defined outside
`src/`), which quotes the triggering body and author around the reply. -/

/-- One outward call issued while handling an event. -/
inductive Effect where
  | createComment (org repo : String) (number : Nat) (body : String)
  | addLabel (org repo : String) (number : Nat) (label : String)
  | removeLabel (org repo : String) (number : Nat) (label : String)
  | updateBugCall (id : Nat) (update : BugUpdate)
  | addExternalBugCall (id : Nat) (org repo : String) (number : Nat)
  | emailQuery (email : String)
deriving DecidableEq

/-- Whether an effect is a tracker bug-state update. -/
def Effect.isUpdateBugCall : Effect → Bool
  | .updateBugCall _ _ => true
  | _ => false

/-- Whether an effect is the GitHub directory (email) query. -/
def Effect.isEmailQuery : Effect → Bool
  | .emailQuery _ => true
  | _ => false

/-- The results the external systems return to the handler, one field per
consumed capability.  Errors are carried as their message strings.
`getBug = .ok none` models the tracker's distinguished not-found condition
(`bugzilla.IsNotFound` or a nil bug). -/
structure Oracles where
  getBug : Except String (Option Bug)
  getDependent : Nat → Except String Bug
  updateBugResult : Except String Unit
  addExternalBugResult : Except String Bool
  emailQueryResult : Except String (List String)
  issueLabels : Except String (List String)
  externalBugPRs : Except String (List ExternalBug)
  getPullRequest : ExternalBug → Except String (Bool × String)
  createCommentResult : Except String Unit

/-- The comment effect for an event (source `event.comment`,
lines 336-340). -/
def commentEffect (e : event) (body : String) : Effect :=
  Effect.createComment e.org e.repo e.number body

/-- The Go error value `handle` propagates after posting a comment: it is
exactly the result of `CreateComment` (`none` models a nil error). -/
def commentResult (o : Oracles) : Option String :=
  match o.createCommentResult with
  | .ok _ => none
  | .error err => some err

/-- A finished handler run: the ordered call trace and the returned Go
error. -/
abbrev HandlerResult := List Effect × Option String

/-- `formatError` (source lines 779-784). -/
def formatError (action endpoint : String) (bugId : Nat) (err : String) :
    String :=
  "An error was encountered " ++ action ++ " for bug " ++ toString bugId ++
    " on the Bugzilla server at " ++ endpoint ++ ":\n> " ++ err ++
    "\nPlease contact an administrator to resolve this issue, then request a bug refresh with <code>/bugzilla refresh</code>."

/-- The not-found reply posted by `getBug` (source lines 770-775). -/
def noSuchBugResponse (endpoint : String) (bugId : Nat) : String :=
  "No Bugzilla bug with ID " ++ toString bugId ++
    " exists in the tracker at " ++ endpoint ++
    ".\nOnce a valid bug is referenced in the title of this pull request, request a bug refresh with <code>/bugzilla refresh</code>."

/-- The reply posted when no bug is referenced (source lines 404-405). -/
def missingResponse : String :=
  "No Bugzilla bug is referenced in the title of this pull request.\nTo reference a bug, add \x27Bug XXX:\x27 to the title of this pull request and request another bug refresh with <code>/bugzilla refresh</code>."

/-- `processQuery` (source lines 376-389): renders the directory-query
result. -/
def processQuery (logins : List String) (email : String) : String :=
  match logins with
  | [] =>
    "No GitHub users were found matching the public email listed for the QA contact in Bugzilla (" ++
      email ++ "), skipping assignment."
  | [l] => "Assigning the QA contact for review:\n/assign @" ++ l
  | _ =>
    "Multiple GitHub users were found matching the public email listed for the QA contact in Bugzilla (" ++
      email ++ "), skipping assignment. List of users with matching email:" ++
      String.join (logins.map (fun l => "\n\t- " ++ l))

/-! ## Label reconciler (source lines 495-527) -/

/-- The add/remove decision for one label kind: at most one call, only when
current presence disagrees with desired presence (source lines 509-517 for
the valid label, 519-527 for the invalid label). -/
def labelKindEffects (e : event) (label : String) (has needs : Bool) :
    List Effect :=
  if needs ∧ ¬has then [Effect.addLabel e.org e.repo e.number label]
  else if ¬needs ∧ has then [Effect.removeLabel e.org e.repo e.number label]
  else []

/-- The whole label-reconciliation block: the valid-label kind then the
invalid-label kind. -/
def labelEffects (e : event) (hasValid hasInvalid needsValid needsInvalid :
    Bool) : List Effect :=
  labelKindEffects e validBugLabel hasValid needsValid ++
    labelKindEffects e invalidBugLabel hasInvalid needsInvalid

/-- Label presence after one reconciliation pass for one kind (label writes
succeed; write failures are logged and swallowed by the source). -/
def applyLabelPass (has needs : Bool) : Bool :=
  if needs ∧ ¬has then true
  else if ¬needs ∧ has then false
  else has

/-- Current label presence read from `GetIssueLabels` (source lines
495-507): a read failure is swallowed and leaves both flags false. -/
def labelFlags (r : Except String (List String)) : Bool × Bool :=
  match r with
  | .error _ => (false, false)
  | .ok ls => (ls.contains validBugLabel, ls.contains invalidBugLabel)

/-- The desired label presence for a Verdict, or for a missing bug
reference (source lines 400-403 and 426): `(needsValid, needsInvalid)`. -/
def desiredLabels (missing valid : Bool) : Bool × Bool :=
  if missing then (false, false) else (valid, !valid)

/-- The tail of `handle` (source lines 492-529): reconcile labels, then post
the single reply comment. -/
def finishWithLabels (e : event) (o : Oracles) (fx : List Effect)
    (needsValid needsInvalid : Bool) (response : String) : HandlerResult :=
  let flags := labelFlags o.issueLabels
  (fx ++ labelEffects e flags.1 flags.2 needsValid needsInvalid ++
    [commentEffect e response], commentResult o)

/-! ## The valid-bug branch of `handle` (source lines 427-479)

Each stage either returns a finished `HandlerResult` (an early return after
posting an error comment) or the accumulated call trace plus the response
text so far. -/

/-- The post-validation state move (source lines 429-437). -/
def stageValidationUpdate (e : event) (o : Oracles)
    (options : BugzillaBranchOptions) (endpoint : String) :
    Except HandlerResult (List Effect × String) :=
  let response :=
    "This pull request references " ++ bugLinkStr endpoint e.bugId ++
      ", which is valid."
  match options.stateAfterValidation with
  | none => Except.ok ([], response)
  | some s =>
    match o.updateBugResult with
    | .error err =>
      Except.error
        ([Effect.updateBugCall e.bugId s.asBugUpdate,
          commentEffect e
            (formatError ("updating to the " ++ s.display ++ " state")
              endpoint e.bugId err)], commentResult o)
    | .ok _ =>
      Except.ok
        ([Effect.updateBugCall e.bugId s.asBugUpdate],
          response ++ " The bug has been moved to the " ++ s.display ++
            " state.")

/-- The external-link stage (source lines 438-447). -/
def stageExternalLink (e : event) (o : Oracles)
    (options : BugzillaBranchOptions) (endpoint : String)
    (acc : List Effect × String) :
    Except HandlerResult (List Effect × String) :=
  match options.addExternalLink with
  | some true =>
    match o.addExternalBugResult with
    | .error err =>
      Except.error
        (acc.1 ++
          [Effect.addExternalBugCall e.bugId e.org e.repo e.number,
           commentEffect e
             (formatError
               ("adding this pull request to the external tracker bugs")
               endpoint e.bugId err)], commentResult o)
    | .ok changed =>
      Except.ok
        (acc.1 ++ [Effect.addExternalBugCall e.bugId e.org e.repo e.number],
          acc.2 ++
            (if changed then
              " The bug has been updated to refer to the pull request using the external bug tracker."
            else ""))
  | _ => Except.ok acc

/-- The validations `<details>` section (source lines 449-458). -/
def detailsSection (validations : List String) : String :=
  "\n\n<details>" ++
    (if validations.isEmpty then
      "<summary>No validations were run on this bug</summary>"
    else
      "<summary>" ++ toString validations.length ++
        " validation(s) were run on this bug</summary>\n") ++
    String.join (validations.map (fun v => "\n* " ++ v)) ++ "</details>"

/-- The QA-assignment stage (source lines 460-479): only on `/bugzilla
assign-qa`; skipped with a note when the bug has no QA contact or the
contact has no email, otherwise the directory query runs. -/
def stageAssign (e : event) (o : Oracles) (endpoint : String) (bug : Bug)
    (acc : List Effect × String) :
    Except HandlerResult (List Effect × String) :=
  if e.assign then
    match bug.qaContactDetail with
    | none =>
      Except.ok
        (acc.1,
          acc.2 ++ bugLinkStr endpoint e.bugId ++
            " does not have a QA contact, skipping assignment")
    | some qa =>
      if qa.email = "" then
        Except.ok
          (acc.1,
            acc.2 ++ "QA contact for " ++ bugLinkStr endpoint e.bugId ++
              " does not have a listed email, skipping assignment")
      else
        match o.emailQueryResult with
        | .error err =>
          Except.error
            (acc.1 ++
              [Effect.emailQuery qa.email,
               commentEffect e
                 (formatError
                   ("querying GitHub for users with public email (" ++
                     qa.email ++ ")") endpoint e.bugId err)],
              commentResult o)
        | .ok logins =>
          Except.ok
            (acc.1 ++ [Effect.emailQuery qa.email],
              acc.2 ++ "\n\n" ++ processQuery logins qa.email)
  else
    Except.ok acc

/-- The stages of the valid branch before the QA-assignment stage: the state
move, the external link.  The `<details>` section is appended between this
and `stageAssign`. -/
def validPre (e : event) (o : Oracles) (options : BugzillaBranchOptions)
    (endpoint : String) : Except HandlerResult (List Effect × String) :=
  match stageValidationUpdate e o options endpoint with
  | .error r => Except.error r
  | .ok acc => stageExternalLink e o options endpoint acc

/-- The whole valid-bug branch, producing the trace and response to hand to
the label reconciler. -/
def validBranch (e : event) (o : Oracles) (options : BugzillaBranchOptions)
    (endpoint : String) (bug : Bug) (v : Verdict) :
    Except HandlerResult (List Effect × String) :=
  match validPre e o options endpoint with
  | .error r => Except.error r
  | .ok acc =>
    stageAssign e o endpoint bug (acc.1, acc.2 ++ detailsSection v.validations)

/-- The invalid-bug reply (source lines 481-488). -/
def invalidResponse (endpoint : String) (bugId : Nat) (why : List String) :
    String :=
  "This pull request references " ++ bugLinkStr endpoint bugId ++
    ", which is invalid:\n" ++
    String.join (why.map (fun reason => " - " ++ reason ++ "\n")) ++
    "\nComment <code>/bugzilla refresh</code> to re-evaluate validity if changes to the Bugzilla bug are made, or edit the title of this pull request to link to a different bug."

/-- The dependent-bug fetch loop in `handle` (source lines 415-423): fetch
each dependency in order, aborting at the first error with its bug id. -/
def fetchDependentsList (o : Oracles) : List Nat →
    Except (Nat × String) (List Bug)
  | [] => Except.ok []
  | id :: rest =>
    match o.getDependent id with
    | .error err => Except.error (id, err)
    | .ok dep =>
      match fetchDependentsList o rest with
      | .error e => Except.error e
      | .ok deps => Except.ok (dep :: deps)

/-- Dependents are fetched only when a dependent requirement is configured
(source line 415). -/
def fetchDependents (o : Oracles) (options : BugzillaBranchOptions)
    (bug : Bug) : Except (Nat × String) (List Bug) :=
  if options.dependentBugStates ≠ none ∨
      options.dependentBugTargetRelease ≠ none then
    fetchDependentsList o bug.dependsOn
  else
    Except.ok []

/-! ## Merge tracker (`handleMerge`, source lines 656-762) -/

/-- The PR link format used by `handleMerge` (source lines 726-728). -/
def prLink (b : ExternalBug) : String :=
  "[" ++ b.org ++ "/" ++ b.repo ++ "#" ++ toString b.num ++
    "](https://github.com/" ++ b.org ++ "/" ++ b.repo ++ "/pull/" ++
    toString b.num ++ ")"

/-- Merge state of one linked pull request (source lines 697-710): the
triggering pull request reuses the event's known values, every other one is
fetched. -/
def prFetch (e : event) (o : Oracles) (item : ExternalBug) :
    Except String (Bool × String) :=
  if e.org = item.org ∧ e.repo = item.repo ∧ e.number = item.num then
    Except.ok (e.merged, e.state)
  else
    o.getPullRequest item

/-- The classification loop of `handleMerge` (source lines 693-724):
returns `(mergedPRs, unmergedPrStates, shouldMigrate)`, stopping at the
first unmerged pull request; a fetch failure aborts with the formatted
error reply.  (`unmergedPrStates` is a Go map, but the break after the
first unmerged entry keeps it at most a singleton.) -/
def classifyPRs (e : event) (o : Oracles) (endpoint : String) :
    List ExternalBug →
    Except String (List ExternalBug × List (ExternalBug × String) × Bool)
  | [] => Except.ok ([], [], true)
  | item :: rest =>
    match prFetch e o item with
    | .error err =>
      Except.error
        (formatError
          ("checking the state of a related pull request at https://github.com/" ++
            item.org ++ "/" ++ item.repo ++ "/pull/" ++ toString item.num)
          endpoint e.bugId err)
    | .ok ms =>
      if ms.1 then
        match classifyPRs e o endpoint rest with
        | .error msg => Except.error msg
        | .ok acc => Except.ok (item :: acc.1, acc.2.1, acc.2.2)
      else
        Except.ok ([], [(item, ms.2)], false)

/-- The allowed state set used by the merge guard (source lines 675-682). -/
def allowedMergeStates (options : BugzillaBranchOptions) :
    List BugzillaBugState :=
  (match options.validStates with
   | none => []
   | some vs => vs) ++
  (match options.stateAfterValidation with
   | none => []
   | some s => [s])

/-- The pre-merge allowed-state guard (source lines 665-686): only when
valid states or a post-validation state are configured; refuses to advance a
bug in an unrecognized state. -/
def mergeGuard (e : event) (o : Oracles) (options : BugzillaBranchOptions)
    (endpoint : String) (s : BugzillaBugState) :
    Except HandlerResult Unit :=
  if options.validStates = none ∧ options.stateAfterValidation = none then
    Except.ok ()
  else
    match o.getBug with
    | .error err =>
      Except.error
        ([commentEffect e (formatError ("searching") endpoint e.bugId err)],
          commentResult o)
    | .ok none =>
      Except.error
        ([commentEffect e (noSuchBugResponse endpoint e.bugId)],
          commentResult o)
    | .ok (some bug) =>
      if ¬bugMatchesStates bug (allowedMergeStates options) then
        Except.error
          ([commentEffect e
              (bugLinkStr endpoint e.bugId ++ " is in an unrecognized state (" ++
                prettyStatus bug.status bug.resolution ++
                ") and will not be moved to the " ++ s.display ++ " state.")],
            commentResult o)
      else
        Except.ok ()

/-- The merged-PRs sentence (source lines 730-736). -/
def mergedMessage (mergedPRs : List ExternalBug) (statement : String) :
    String :=
  statement ++ " pull requests linked via external trackers have merged: " ++
    String.intercalate (", ") (mergedPRs.map prLink) ++ "."

/-- The unmerged-PRs sentence (source lines 738-742). -/
def unmergedMessage (unmergedPrStates : List (ExternalBug × String)) :
    String :=
  "The following pull requests linked via external trackers have not merged:" ++
    String.intercalate ("\n")
      (unmergedPrStates.map (fun p => "\n * " ++ prLink p.1 ++ " is " ++ p.2))

/-- The outcome sentence (source lines 744-746): note the action is spliced
between "has " and "been moved", and both call sites pass the empty
action. -/
def outcomeMessage (e : event) (endpoint : String) (s : BugzillaBugState)
    (action : String) : String :=
  bugLinkStr endpoint e.bugId ++ " has " ++ action ++ "been moved to the " ++
    s.display ++ " state."

/-- `handleMerge` (source lines 656-762). -/
def handleMerge (e : event) (o : Oracles) (options : BugzillaBranchOptions)
    (endpoint : String) : HandlerResult :=
  match options.stateAfterMerge with
  | none => ([], none)
  | some s =>
    if e.missing then ([], none)
    else
      match mergeGuard e o options endpoint s with
      | .error r => r
      | .ok _ =>
        match o.externalBugPRs with
        | .error err =>
          ([commentEffect e
              (formatError ("searching for external tracker bugs") endpoint
                e.bugId err)], commentResult o)
        | .ok prs =>
          match classifyPRs e o endpoint prs with
          | .error msg => ([commentEffect e msg], commentResult o)
          | .ok cls =>
            if cls.2.2 then
              match o.updateBugResult with
              | .error err =>
                ([Effect.updateBugCall e.bugId s.asBugUpdate,
                  commentEffect e
                    (formatError ("updating to the " ++ s.display ++ " state")
                      endpoint e.bugId err)], commentResult o)
              | .ok _ =>
                ([Effect.updateBugCall e.bugId s.asBugUpdate,
                  commentEffect e
                    (mergedMessage cls.1 ("All") ++ " " ++
                      outcomeMessage e endpoint s (""))], commentResult o)
            else
              ([commentEffect e
                  (mergedMessage cls.1 ("Some") ++ " " ++
                    unmergedMessage cls.2.1 ++ "\n" ++
                    outcomeMessage e endpoint s (""))], commentResult o)

/-! ## The handler (`handle`, source lines 391-530) -/

/-- `handle`: the top-level per-event reconciliation.  Merge events are
dispatched to `handleMerge`; otherwise the bug is fetched and validated, the
response composed, labels reconciled and the single reply posted.  Early
returns after posting an error comment mirror the source exactly. -/
def handle (e : event) (o : Oracles) (options : BugzillaBranchOptions)
    (endpoint : String) : HandlerResult :=
  if e.merged then handleMerge e o options endpoint
  else if e.missing then
    finishWithLabels e o [] false false missingResponse
  else
    match o.getBug with
    | .error err =>
      ([commentEffect e (formatError ("searching") endpoint e.bugId err)],
        commentResult o)
    | .ok none =>
      ([commentEffect e (noSuchBugResponse endpoint e.bugId)],
        commentResult o)
    | .ok (some bug) =>
      match fetchDependents o options bug with
      | .error ie =>
        ([commentEffect e
            (formatError ("searching for dependent bug " ++ toString ie.1)
              endpoint e.bugId ie.2)], commentResult o)
      | .ok dependents =>
        let v := validateBug bug dependents options endpoint
        if v.valid then
          match validBranch e o options endpoint bug v with
          | .error r => r
          | .ok acc => finishWithLabels e o acc.1 true false acc.2
        else
          finishWithLabels e o [] false true
            (invalidResponse endpoint e.bugId v.errors)

/-! ## Witness fixtures -/

/-- A concrete bug used in witnesses. -/
def bug0 : Bug :=
  { id := 1234, isOpen := true, status := "NEW", resolution := "",
    targetRelease := [], dependsOn := [], qaContactDetail := none }

/-- A concrete dependent bug used in witnesses. -/
def dep0 : Bug :=
  { id := 7, isOpen := true, status := "VERIFIED", resolution := "",
    targetRelease := [], dependsOn := [], qaContactDetail := none }

/-- The policy with no options configured, used in witnesses. -/
def opts0 : BugzillaBranchOptions :=
  { isOpen := none, targetRelease := none, validStates := none,
    dependentBugStates := none, dependentBugTargetRelease := none,
    stateAfterValidation := none, stateAfterMerge := none,
    addExternalLink := none, validateByDefault := none }

/-- A Policy with no constraints configured (the five constraint options of
the spec; the post-validation/post-merge states and the external-link flag
are updates, not constraints). -/
def noConstraints (options : BugzillaBranchOptions) : Prop :=
  options.isOpen = none ∧ options.targetRelease = none ∧
    options.validStates = none ∧ options.dependentBugStates = none ∧
    options.dependentBugTargetRelease = none

/-- A concrete edited pull-request event for the C7 witness. -/
def pre0 : PullRequestEvent :=
  { action := PRAction.edited, merged := false, state := "open",
    title := "Bug 7: fix flake", org := "org", repo := "repo",
    baseRef := "main", number := 5, htmlUrl := "u", login := "alice",
    changes := some ("bug 7: fix") }

/-- A concrete event fixture for witnesses. -/
def ev0 : event :=
  { org := "org", repo := "repo", baseRef := "main", number := 5,
    bugId := 1234, missing := false, merged := false, state := "open",
    body := "Bug 1234: fix flake", htmlUrl := "u", login := "alice",
    assign := false }


/-- The event's own pull request, as an external-link record. -/
def extbug1 : ExternalBug := { org := "org", repo := "repo", num := 5 }

/-- Another linked pull request in a different repo. -/
def extbug2 : ExternalBug := { org := "other", repo := "r2", num := 9 }

/-- The witness merge event: `ev0` after its pull request merged. -/
def evM : event := { ev0 with merged := true, state := "closed" }

/-- A concrete post-merge state. -/
def stateM : BugzillaBugState := { status := "MODIFIED", resolution := "" }

/-- A policy configuring only the post-merge state. -/
def optsMerge : BugzillaBranchOptions :=
  { opts0 with stateAfterMerge := some stateM }

/-- Oracles under which both linked pull requests have merged. -/
def orcAllMerged : Oracles :=
  { getBug := Except.ok (some bug0),
    getDependent := fun _ => Except.ok dep0,
    updateBugResult := Except.ok (),
    addExternalBugResult := Except.ok true,
    emailQueryResult := Except.ok [],
    issueLabels := Except.ok [],
    externalBugPRs := Except.ok [extbug1, extbug2],
    getPullRequest := fun _ => Except.ok (true, "closed"),
    createCommentResult := Except.ok () }

/-- Oracles under which the other linked pull request is still open. -/
def orcOneUnmerged : Oracles :=
  { orcAllMerged with
    getPullRequest := fun b =>
      if b = extbug2 then Except.ok (false, "open")
      else Except.ok (true, "closed") }

/-- Oracles whose bug fetch fails with a transient error. -/
def orcFetchErr : Oracles :=
  { orcAllMerged with getBug := Except.error ("boom") }

/-- Oracles whose tracker update fails with a transient error. -/
def orcUpdateErr : Oracles :=
  { orcAllMerged with updateBugResult := Except.error ("boom") }

/-- A policy configuring only a post-validation state. -/
def optsSAV : BugzillaBranchOptions :=
  { opts0 with stateAfterValidation := some stateM }

/-- The witness event with the assign flag set. -/
def evAssign : event := { ev0 with assign := true }

/-! ## Verdict invariant: valid implies no errors -/

/-- The invariant each validation step preserves: a valid verdict carries no
errors. -/
def ErrInv (v : Verdict) : Prop := v.valid = true → v.errors = []

theorem errInv_checkIsOpen (options : BugzillaBranchOptions) (bug : Bug)
    {v : Verdict} (h : ErrInv v) : ErrInv (checkIsOpen options bug v) := by
  unfold ErrInv checkIsOpen at *
  cases options.isOpen with
  | none => exact h
  | some o =>
    dsimp only
    split
    · intro hv; simp at hv
    · intro hv; exact h hv

theorem errInv_checkTargetRelease (options : BugzillaBranchOptions)
    (bug : Bug) {v : Verdict} (h : ErrInv v) :
    ErrInv (checkTargetRelease options bug v) := by
  unfold ErrInv checkTargetRelease at *
  cases options.targetRelease with
  | none => exact h
  | some r =>
    cases bug.targetRelease with
    | nil => intro hv; simp at hv
    | cons t ts =>
      dsimp only
      split
      · intro hv; simp at hv
      · intro hv; exact h hv

theorem errInv_checkValidStates (options : BugzillaBranchOptions)
    (bug : Bug) {v : Verdict} (h : ErrInv v) :
    ErrInv (checkValidStates options bug v) := by
  unfold ErrInv checkValidStates at *
  cases options.validStates with
  | none => exact h
  | some vs =>
    dsimp only
    split
    · intro hv; simp at hv
    · intro hv; exact h hv

theorem errInv_depStateStep (endpoint : String)
    (states : List BugzillaBugState) {v : Verdict} (h : ErrInv v)
    (dep : Bug) : ErrInv (depStateStep endpoint states v dep) := by
  unfold ErrInv depStateStep at *
  split
  · intro hv; simp at hv
  · intro hv; exact h hv

theorem errInv_checkDependentStates (options : BugzillaBranchOptions)
    (endpoint : String) (dependents : List Bug) {v : Verdict}
    (h : ErrInv v) : ErrInv (checkDependentStates options endpoint dependents v) := by
  unfold checkDependentStates
  cases options.dependentBugStates with
  | none => exact h
  | some states =>
    dsimp only
    induction dependents generalizing v with
    | nil => exact h
    | cons d ds ih =>
      exact ih (errInv_depStateStep endpoint states h d)

theorem errInv_depReleaseStep (endpoint : String) (r : String)
    {v : Verdict} (h : ErrInv v) (dep : Bug) :
    ErrInv (depReleaseStep endpoint r v dep) := by
  unfold ErrInv depReleaseStep at *
  cases dep.targetRelease with
  | nil => intro hv; simp at hv
  | cons t ts =>
    dsimp only
    split
    · intro hv; simp at hv
    · intro hv; exact h hv

theorem errInv_checkDependentTargetRelease (options : BugzillaBranchOptions)
    (endpoint : String) (dependents : List Bug) {v : Verdict}
    (h : ErrInv v) :
    ErrInv (checkDependentTargetRelease options endpoint dependents v) := by
  unfold checkDependentTargetRelease
  cases options.dependentBugTargetRelease with
  | none => exact h
  | some r =>
    dsimp only
    induction dependents generalizing v with
    | nil => exact h
    | cons d ds ih =>
      exact ih (errInv_depReleaseStep endpoint r h d)

theorem errInv_checkDependentsPresence (options : BugzillaBranchOptions)
    (endpoint : String) (bug : Bug) (dependents : List Bug) {v : Verdict}
    (h : ErrInv v) :
    ErrInv (checkDependentsPresence options endpoint bug dependents v) := by
  unfold ErrInv checkDependentsPresence at *
  cases dependents with
  | cons d ds => intro hv; exact h hv
  | nil =>
    cases hs : options.dependentBugStates with
    | some ss =>
      cases hr : options.dependentBugTargetRelease with
      | some r => intro hv; simp at hv
      | none => intro hv; simp at hv
    | none =>
      cases hr : options.dependentBugTargetRelease with
      | some r => intro hv; simp at hv
      | none => exact h

/-- Claim C5: every Verdict returned by `validateBug`, for any bug,
dependents list and Policy, is never both valid and carrying errors: when
the returned valid flag is true, the returned errors list is empty. -/
theorem c5_valid_no_errors (bug : Bug) (dependents : List Bug)
    (options : BugzillaBranchOptions) (endpoint : String)
    (h : (validateBug bug dependents options endpoint).valid = true) :
    (validateBug bug dependents options endpoint).errors = [] := by
  refine errInv_checkDependentsPresence options endpoint bug dependents
    (errInv_checkDependentTargetRelease options endpoint dependents
      (errInv_checkDependentStates options endpoint dependents
        (errInv_checkValidStates options bug
          (errInv_checkTargetRelease options bug
            (errInv_checkIsOpen options bug ?_))))) h
  intro _
  rfl

/-- Witness for C5 at a concrete valid verdict. -/
theorem c5_valid_no_errors_witness :
    (validateBug bug0 [] opts0 ("ep")).errors = [] :=
  c5_valid_no_errors bug0 [] opts0 ("ep") (by decide)

/-! ## Claims C3 and C4: the validator on unconstrained and
dependent-constrained policies -/

theorem checkDependentStates_nil (options : BugzillaBranchOptions)
    (endpoint : String) (v : Verdict) :
    checkDependentStates options endpoint [] v = v := by
  unfold checkDependentStates
  cases options.dependentBugStates <;> rfl

theorem checkDependentTargetRelease_nil (options : BugzillaBranchOptions)
    (endpoint : String) (v : Verdict) :
    checkDependentTargetRelease options endpoint [] v = v := by
  unfold checkDependentTargetRelease
  cases options.dependentBugTargetRelease <;> rfl

/-- Claim C4 (counterexample): the claim quantifies over every dependents
list, but on a Policy with no constraints and a nonempty dependents list
`validateBug` records the validation "bug has dependents", so the
validations list is not empty. -/
theorem c4_counterexample :
    validateBug bug0 [dep0] opts0 ("ep") =
      { valid := true, validations := ["bug has dependents"], errors := [] } ∧
    (validateBug bug0 [dep0] opts0 ("ep")).validations ≠ [] := by
  constructor
  · decide
  · decide

/-- Claim C4 (amended): for every Policy with no constraints configured and
every bug and dependents list, `validateBug` returns valid=true with zero
errors; the validations list is empty when the dependents list is empty, and
is exactly ["bug has dependents"] otherwise. -/
theorem c4_amended (bug : Bug) (deps : List Bug)
    (options : BugzillaBranchOptions) (endpoint : String)
    (h : noConstraints options) :
    (validateBug bug deps options endpoint).valid = true ∧
    (validateBug bug deps options endpoint).errors = [] ∧
    (deps = [] → (validateBug bug deps options endpoint).validations = []) ∧
    (deps ≠ [] →
      (validateBug bug deps options endpoint).validations =
        ["bug has dependents"]) := by
  obtain ⟨h1, h2, h3, h4, h5⟩ := h
  unfold validateBug checkIsOpen checkTargetRelease checkValidStates
    checkDependentStates checkDependentTargetRelease checkDependentsPresence
  rw [h1, h2, h3, h4, h5]
  cases deps with
  | nil => simp
  | cons d ds => simp

/-- Witness for C4's amended theorem on the unconstrained policy. -/
theorem c4_amended_witness :
    (validateBug bug0 [] opts0 ("ep")).valid = true ∧
    (validateBug bug0 [dep0] opts0 ("ep")).validations =
      ["bug has dependents"] :=
  ⟨(c4_amended bug0 [] opts0 ("ep") ⟨rfl, rfl, rfl, rfl, rfl⟩).1,
    (c4_amended bug0 [dep0] opts0 ("ep") ⟨rfl, rfl, rfl, rfl, rfl⟩).2.2.2
      (by decide)⟩

/-- Claim C3: for every Policy configuring a dependent-bug state requirement
or a dependent-bug target-release requirement, `validateBug` with an empty
dependents list returns valid=false, and the last error names exactly the
unsatisfied dependent requirement. -/
theorem c3_dependent_requirements_empty (bug : Bug)
    (options : BugzillaBranchOptions) (endpoint : String)
    (h : options.dependentBugStates ≠ none ∨
      options.dependentBugTargetRelease ≠ none) :
    (validateBug bug [] options endpoint).valid = false ∧
    (validateBug bug [] options endpoint).errors ≠ [] ∧
    (∀ ss r, options.dependentBugStates = some ss →
      options.dependentBugTargetRelease = some r →
      (validateBug bug [] options endpoint).errors.getLast? =
        some ("expected " ++ bugLinkStr endpoint bug.id ++
          " to depend on a bug targeting the \"" ++ r ++
          "\" release and in one of the following states: " ++
          joinStates ss ++ ", but no dependents were found")) ∧
    (∀ ss, options.dependentBugStates = some ss →
      options.dependentBugTargetRelease = none →
      (validateBug bug [] options endpoint).errors.getLast? =
        some ("expected " ++ bugLinkStr endpoint bug.id ++
          " to depend on a bug in one of the following states: " ++
          joinStates ss ++ ", but no dependents were found")) ∧
    (∀ r, options.dependentBugStates = none →
      options.dependentBugTargetRelease = some r →
      (validateBug bug [] options endpoint).errors.getLast? =
        some ("expected " ++ bugLinkStr endpoint bug.id ++
          " to depend on a bug targeting the \"" ++ r ++
          "\" release, but no dependents were found")) := by
  unfold validateBug
  rw [checkDependentStates_nil, checkDependentTargetRelease_nil]
  unfold checkDependentsPresence
  cases hs : options.dependentBugStates with
  | some ss =>
    cases hr : options.dependentBugTargetRelease with
    | some r =>
      refine ⟨rfl, by simp, ?_, ?_, ?_⟩
      · intro ss' r' hss hrr
        injection hss with h1
        injection hrr with h2
        subst h1
        subst h2
        simp
      · intro ss' _ hrr
        exact Option.noConfusion hrr
      · intro r' hss _
        exact Option.noConfusion hss
    | none =>
      refine ⟨rfl, by simp, ?_, ?_, ?_⟩
      · intro ss' r' _ hrr
        exact Option.noConfusion hrr
      · intro ss' hss _
        injection hss with h1
        subst h1
        simp
      · intro r' hss _
        exact Option.noConfusion hss
  | none =>
    cases hr : options.dependentBugTargetRelease with
    | some r =>
      refine ⟨rfl, by simp, ?_, ?_, ?_⟩
      · intro ss' r' hss _
        exact Option.noConfusion hss
      · intro ss' hss _
        exact Option.noConfusion hss
      · intro r' _ hrr
        injection hrr with h2
        subst h2
        simp
    | none =>
      rw [hs, hr] at h
      simp at h

/-- Witness for C3 with a dependent-state requirement configured. -/
theorem c3_dependent_requirements_empty_witness :
    (validateBug bug0 []
      { opts0 with dependentBugStates := some [⟨"VERIFIED", ""⟩] }
      ("ep")).valid = false :=
  (c3_dependent_requirements_empty bug0
    { opts0 with dependentBugStates := some [⟨"VERIFIED", ""⟩] } ("ep")
    (Or.inl (by decide))).1

/-! ## Claim C7: title-edit suppression -/

/-- Claim C7: a pull-request edit event whose previous and current titles
reference the same bug id produces no Event, though edit is a qualifying
action. -/
theorem c7_title_edit_suppression (pre : PullRequestEvent)
    (vbd : Option Bool) (n : Nat) (prev : String)
    (ha : pre.action = PRAction.edited)
    (hc : pre.changes = some prev)
    (ht : extractBugId pre.title = some n)
    (hp : extractBugId prev = some n) :
    digestPR pre vbd = none := by
  unfold digestPR
  rw [ha, hc, ht]
  simp [hp]

/-- Witness for C7 on a concrete edit event keeping bug 7. -/
theorem c7_title_edit_suppression_witness : digestPR pre0 none = none :=
  c7_title_edit_suppression pre0 none 7 ("bug 7: fix") rfl rfl (by decide)
    (by decide)

/-! ## Claim C1: bug-id extraction from the title

The compiled pattern is `(?i)^.*?Bug ([0-9]+):`.  The lazy `.*?` accepts any
run of non-newline characters before the literal, so the pattern is NOT
anchored at the title start: it is recognized at the first occurrence
anywhere on the first line. -/

theorem takeDigits_digits_colon (ds rest : List Char)
    (h : ∀ c ∈ ds, c.isDigit = true) :
    takeDigits (ds ++ ':' :: rest) = (ds, ':' :: rest) := by
  induction ds with
  | nil =>
    rw [List.nil_append]
    simp only [takeDigits]
    rw [if_neg]
    decide
  | cons c cs ih =>
    have hc : c.isDigit = true := h c (List.mem_cons_self c cs)
    rw [List.cons_append]
    simp only [takeDigits, hc, if_true]
    rw [ih (fun x hx => h x (List.mem_cons_of_mem c hx))]

theorem matchAt_bug_token (ds rest : List Char) (hne : ds ≠ [])
    (h : ∀ c ∈ ds, c.isDigit = true) :
    matchAt ('B' :: 'u' :: 'g' :: ' ' :: (ds ++ ':' :: rest)) =
      some (digitsToNat ds) := by
  unfold matchAt
  have hs : stripBugToken ('B' :: 'u' :: 'g' :: ' ' :: (ds ++ ':' :: rest)) =
      some (ds ++ ':' :: rest) := by
    simp [stripBugToken]
  rw [hs]
  simp only [takeDigits_digits_colon ds rest h]
  rw [if_neg hne]

theorem stripBugToken_none_of_head (c : Char) (xs : List Char)
    (h : c ≠ 'B' ∧ c ≠ 'b') : stripBugToken (c :: xs) = none := by
  rcases xs with _ | ⟨u, _ | ⟨g, _ | ⟨sp, rest⟩⟩⟩
  · rfl
  · rfl
  · rfl
  · simp [stripBugToken, h.1, h.2]

theorem matchAt_none_of_head (c : Char) (xs : List Char)
    (h : c ≠ 'B' ∧ c ≠ 'b') : matchAt (c :: xs) = none := by
  unfold matchAt
  rw [stripBugToken_none_of_head c xs h]

theorem findTitleMatch_append (p tail : List Char) (n : Nat)
    (hp : ∀ c ∈ p, (c ≠ 'B' ∧ c ≠ 'b') ∧ c ≠ '\n')
    (hne : tail ≠ []) (hm : matchAt tail = some n) :
    findTitleMatch (p ++ tail) = some n := by
  induction p with
  | nil =>
    rw [List.nil_append]
    cases tail with
    | nil => exact absurd rfl hne
    | cons t ts =>
      simp only [findTitleMatch]
      rw [hm]
  | cons c p' ih =>
    have h1 := hp c (List.mem_cons_self c p')
    rw [List.cons_append]
    simp only [findTitleMatch]
    rw [matchAt_none_of_head c (p' ++ tail) h1.1]
    rw [if_neg h1.2]
    exact ih (fun x hx => hp x (List.mem_cons_of_mem c hx))

theorem stripBugToken_shape (cs rest : List Char)
    (h : stripBugToken cs = some rest) :
    ∃ b u g sp, cs = b :: u :: g :: sp :: rest := by
  rcases cs with _ | ⟨b, _ | ⟨u, _ | ⟨g, _ | ⟨sp, r⟩⟩⟩⟩
  · exact Option.noConfusion h
  · exact Option.noConfusion h
  · exact Option.noConfusion h
  · exact Option.noConfusion h
  · by_cases hcond : ((b = 'B' || b = 'b') && (u = 'U' || u = 'u') &&
        (g = 'G' || g = 'g') && sp = ' ' : Bool)
    · have h2 : stripBugToken (b :: u :: g :: sp :: r) = some r := by
        simp only [stripBugToken, hcond, if_true]
      rw [h2] at h
      injection h with h3
      exact ⟨b, u, g, sp, by rw [h3]⟩
    · have h2 : stripBugToken (b :: u :: g :: sp :: r) = none := by
        simp only [stripBugToken]
        rw [if_neg hcond]
      rw [h2] at h
      exact Option.noConfusion h

theorem takeDigits_rest_mem (xs : List Char) :
    ∀ c ∈ (takeDigits xs).2, c ∈ xs := by
  induction xs with
  | nil => intro c hc; exact absurd hc (by simp [takeDigits])
  | cons x xs' ih =>
    intro c hc
    by_cases hd : x.isDigit
    · simp only [takeDigits, hd, if_true] at hc
      exact List.mem_cons_of_mem x (ih c hc)
    · simp only [takeDigits, hd, if_false] at hc
      exact hc

theorem matchAt_none_of_no_colon (cs : List Char)
    (h : ∀ c ∈ cs, c ≠ ':') : matchAt cs = none := by
  unfold matchAt
  cases hs : stripBugToken cs with
  | none => rfl
  | some rest =>
    obtain ⟨b, u, g, sp, hcs⟩ := stripBugToken_shape cs rest hs
    have hrest : ∀ c ∈ rest, c ≠ ':' := by
      intro c hc
      refine h c ?_
      rw [hcs]
      exact List.mem_cons_of_mem _ (List.mem_cons_of_mem _
        (List.mem_cons_of_mem _ (List.mem_cons_of_mem _ hc)))
    dsimp only
    split
    · rfl
    · split
      · rename_i heq
        exfalso
        have hmem : ':' ∈ (takeDigits rest).2 := by
          rw [heq]
          exact List.mem_cons_self _ _
        exact hrest ':' (takeDigits_rest_mem rest ':' hmem) rfl
      · rfl

theorem findTitleMatch_none_of_no_colon (cs : List Char)
    (h : ∀ c ∈ cs, c ≠ ':') : findTitleMatch cs = none := by
  induction cs with
  | nil => rfl
  | cons c rest ih =>
    simp only [findTitleMatch]
    rw [matchAt_none_of_no_colon (c :: rest) h]
    by_cases hn : c = '\n'
    · rw [if_pos hn]
    · rw [if_neg hn]
      exact ih (fun x hx => h x (List.mem_cons_of_mem c hx))

/-- Claim C1 (counterexample): in the title "Fix Bug 123: flake" the pattern
"Bug 123:" does not occur at the title start (`matchAt` fails at position
0), yet extraction yields bug id 123 instead of marking the reference
missing — the compiled pattern `(?i)^.*?Bug ([0-9]+):` is not anchored to
the literal at the start. -/
theorem c1_counterexample :
    extractBugId ("Fix Bug 123: flake") = some 123 ∧
    matchAt (("Fix Bug 123: flake").data) = none := by
  constructor
  · decide
  · decide

/-- Claim C1 (amended): extraction recognizes "Bug <digits>:"
(case-insensitive) at its first occurrence anywhere on the first line of the
title — any prefix of non-newline characters may precede it — yielding the
digits\x27 integer value; a title containing no such occurrence (in
particular none with a colon) is marked missing, and `digestPR` then builds
the event with the missing flag set. -/
theorem c1_amended :
    (∀ (p ds rest : List Char),
      (∀ c ∈ p, (c ≠ 'B' ∧ c ≠ 'b') ∧ c ≠ '\n') →
      ds ≠ [] → (∀ c ∈ ds, c.isDigit = true) →
      findTitleMatch (p ++ 'B' :: 'u' :: 'g' :: ' ' :: (ds ++ ':' :: rest)) =
        some (digitsToNat ds)) ∧
    (∀ title : String, (∀ c ∈ title.data, c ≠ ':') →
      extractBugId title = none) ∧
    (∀ pre : PullRequestEvent, pre.action = PRAction.opened →
      pre.changes = none → extractBugId pre.title = none →
      ∃ ev, digestPR pre (some true) = some ev ∧ ev.missing = true ∧
        ev.bugId = 0) := by
  refine ⟨?_, ?_, ?_⟩
  · intro p ds rest hp hne hds
    exact findTitleMatch_append p _ (digitsToNat ds) hp (by simp)
      (matchAt_bug_token ds rest hne hds)
  · intro title h
    exact findTitleMatch_none_of_no_colon title.data h
  · intro pre ha hc ht
    unfold digestPR
    rw [ha, hc, ht]
    simp

/-- Witness for C1's amended theorem: a prefixed occurrence is extracted,
and a reference-free title yields no id. -/
theorem c1_amended_witness :
    findTitleMatch ((['F', 'i', 'x', ' ']) ++
        'B' :: 'u' :: 'g' :: ' ' :: ((['4', '5', '6']) ++ ':' :: (" ok").data)) =
      some (digitsToNat (['4', '5', '6'])) ∧
    extractBugId ("no reference here") = none :=
  ⟨c1_amended.1 (['F', 'i', 'x', ' ']) (['4', '5', '6']) ((" ok").data)
      (by decide) (by decide) (by decide),
    c1_amended.2.1 ("no reference here") (by decide)⟩

/-! ## Claim C6: label reconciliation is idempotent -/

/-- Claim C6: for any initial label state and desired state derived from a
fixed Verdict (or the missing flag), one pass issues at most one add and one
remove per label kind and only where current presence disagrees with desired
presence; the pass leaves each label in the desired state, and a second pass
from that state issues zero label calls. -/
theorem c6_label_idempotence (e : event) (missing valid hV hI : Bool) :
    (labelKindEffects e validBugLabel hV
        (desiredLabels missing valid).1).length ≤ 1 ∧
    (labelKindEffects e invalidBugLabel hI
        (desiredLabels missing valid).2).length ≤ 1 ∧
    (hV = (desiredLabels missing valid).1 →
      labelKindEffects e validBugLabel hV (desiredLabels missing valid).1 =
        []) ∧
    (hI = (desiredLabels missing valid).2 →
      labelKindEffects e invalidBugLabel hI (desiredLabels missing valid).2 =
        []) ∧
    applyLabelPass hV (desiredLabels missing valid).1 =
      (desiredLabels missing valid).1 ∧
    applyLabelPass hI (desiredLabels missing valid).2 =
      (desiredLabels missing valid).2 ∧
    labelEffects e (desiredLabels missing valid).1
      (desiredLabels missing valid).2 (desiredLabels missing valid).1
      (desiredLabels missing valid).2 = [] := by
  cases missing <;> cases valid <;> cases hV <;> cases hI <;>
    simp [desiredLabels, labelKindEffects, labelEffects, applyLabelPass]

/-- Witness for C6: a pass that agrees with the desired state issues no
calls, and the second pass after any pass issues none. -/
theorem c6_label_idempotence_witness :
    labelKindEffects ev0 validBugLabel true (desiredLabels false true).1 =
      [] ∧
    labelEffects ev0 (desiredLabels false true).1 (desiredLabels false true).2
      (desiredLabels false true).1 (desiredLabels false true).2 = [] :=
  ⟨(c6_label_idempotence ev0 false true true false).2.2.1 (by decide),
    (c6_label_idempotence ev0 false true true false).2.2.2.2.2.2⟩

/-! ## Claim C2: merge advancement -/

theorem classifyPRs_all_merged (e : event) (o : Oracles) (endpoint : String)
    (l : List ExternalBug)
    (h : ∀ item ∈ l, ∃ st, prFetch e o item = Except.ok (true, st)) :
    classifyPRs e o endpoint l = Except.ok (l, [], true) := by
  induction l with
  | nil => rfl
  | cons item rest ih =>
    obtain ⟨st, hst⟩ := h item (List.mem_cons_self item rest)
    simp only [classifyPRs, hst]
    rw [ih (fun x hx => h x (List.mem_cons_of_mem item hx))]
    simp

theorem classifyPRs_first_unmerged (e : event) (o : Oracles)
    (endpoint : String) (pre : List ExternalBug) (u : ExternalBug)
    (post : List ExternalBug) (stu : String)
    (hpre : ∀ item ∈ pre, ∃ st, prFetch e o item = Except.ok (true, st))
    (hu : prFetch e o u = Except.ok (false, stu)) :
    classifyPRs e o endpoint (pre ++ u :: post) =
      Except.ok (pre, [(u, stu)], false) := by
  induction pre with
  | nil =>
    rw [List.nil_append]
    simp only [classifyPRs, hu]
    rfl
  | cons item rest ih =>
    obtain ⟨st, hst⟩ := hpre item (List.mem_cons_self item rest)
    rw [List.cons_append]
    simp only [classifyPRs, hst]
    rw [ih (fun x hx => hpre x (List.mem_cons_of_mem item hx))]
    simp

theorem mergeGuard_ok (e : event) (o : Oracles)
    (options : BugzillaBranchOptions) (endpoint : String)
    (s : BugzillaBugState)
    (h : (options.validStates = none ∧ options.stateAfterValidation = none) ∨
      ∃ bug, o.getBug = Except.ok (some bug) ∧
        bugMatchesStates bug (allowedMergeStates options) = true) :
    mergeGuard e o options endpoint s = Except.ok () := by
  unfold mergeGuard
  by_cases hc : options.validStates = none ∧
      options.stateAfterValidation = none
  · rw [if_pos hc]
  · rw [if_neg hc]
    rcases h with h | ⟨bug, hb, hm⟩
    · exact absurd h hc
    · rw [hb]
      simp [hm]

/-- Claim C2: on a merge event for a referenced bug with a configured
post-merge state, the bug passing the allowed-state guard when one is
configured: if every externally linked pull request has merged, exactly one
tracker update is issued, carrying the configured post-merge state; if
exactly one is unmerged and the rest merged, no tracker update is issued and
the posted comment names the unmerged pull request. -/
theorem c2_merge_advancement (e : event) (o : Oracles)
    (options : BugzillaBranchOptions) (endpoint : String)
    (s : BugzillaBugState) (prs : List ExternalBug)
    (hm : e.merged = true) (hmiss : e.missing = false)
    (hsam : options.stateAfterMerge = some s)
    (hguard : (options.validStates = none ∧
        options.stateAfterValidation = none) ∨
      ∃ bug, o.getBug = Except.ok (some bug) ∧
        bugMatchesStates bug (allowedMergeStates options) = true)
    (hprs : o.externalBugPRs = Except.ok prs) :
    ((∀ item ∈ prs, ∃ st, prFetch e o item = Except.ok (true, st)) →
      o.updateBugResult = Except.ok () →
      ((handle e o options endpoint).1.countP Effect.isUpdateBugCall = 1 ∧
        Effect.updateBugCall e.bugId s.asBugUpdate ∈
          (handle e o options endpoint).1)) ∧
    (∀ pre u post stu, prs = pre ++ u :: post →
      (∀ item ∈ pre, ∃ st, prFetch e o item = Except.ok (true, st)) →
      prFetch e o u = Except.ok (false, stu) →
      ((handle e o options endpoint).1.countP Effect.isUpdateBugCall = 0 ∧
        ∃ p q, (handle e o options endpoint).1 =
          [Effect.createComment e.org e.repo e.number
            (p ++ prLink u ++ q)])) := by
  have hh : handle e o options endpoint = handleMerge e o options endpoint := by
    unfold handle
    rw [hm]
    simp
  constructor
  · intro hall hupd
    rw [hh]
    unfold handleMerge
    rw [hsam]
    simp only [hmiss, Bool.false_eq_true, if_false]
    rw [mergeGuard_ok e o options endpoint s hguard, hprs]
    simp only
    rw [classifyPRs_all_merged e o endpoint prs hall]
    simp only [hupd]
    constructor
    · simp [List.countP_cons, Effect.isUpdateBugCall, commentEffect]
    · simp
  · intro pre u post stu hsplit hpre hu
    rw [hh]
    unfold handleMerge
    rw [hsam]
    simp only [hmiss, Bool.false_eq_true, if_false]
    rw [mergeGuard_ok e o options endpoint s hguard, hprs]
    simp only
    rw [hsplit, classifyPRs_first_unmerged e o endpoint pre u post stu hpre hu]
    simp only [Bool.false_eq_true, if_false]
    constructor
    · simp [List.countP_cons, Effect.isUpdateBugCall, commentEffect]
    · refine ⟨mergedMessage pre ("Some") ++ " " ++
        "The following pull requests linked via external trackers have not merged:" ++
        "\n * ", " is " ++ stu ++ "\n" ++ outcomeMessage e endpoint s (""),
        ?_⟩
      simp only [commentEffect, unmergedMessage, List.map_cons, List.map_nil,
        String.intercalate, String.intercalate.go]
      simp only [String.append_assoc]

/-- Witness for C2: with both linked pull requests merged exactly one
update is issued; with one unmerged none is, and the comment names it. -/
theorem c2_merge_advancement_witness :
    ((handle evM orcAllMerged optsMerge ("ep")).1.countP
        Effect.isUpdateBugCall = 1 ∧
      Effect.updateBugCall evM.bugId stateM.asBugUpdate ∈
        (handle evM orcAllMerged optsMerge ("ep")).1) ∧
    ((handle evM orcOneUnmerged optsMerge ("ep")).1.countP
        Effect.isUpdateBugCall = 0 ∧
      ∃ p q, (handle evM orcOneUnmerged optsMerge ("ep")).1 =
        [Effect.createComment evM.org evM.repo evM.number
          (p ++ prLink extbug2 ++ q)]) :=
  ⟨(c2_merge_advancement evM orcAllMerged optsMerge ("ep") stateM
      [extbug1, extbug2] rfl rfl rfl (Or.inl ⟨rfl, rfl⟩) rfl).1
      (by
        intro item h
        simp only [List.mem_cons, List.not_mem_nil, or_false] at h
        rcases h with h | h
        · subst h; exact ⟨"closed", rfl⟩
        · subst h; exact ⟨"closed", rfl⟩)
      rfl,
    (c2_merge_advancement evM orcOneUnmerged optsMerge ("ep") stateM
      [extbug1, extbug2] rfl rfl rfl (Or.inl ⟨rfl, rfl⟩) rfl).2
      [extbug1] extbug2 [] ("open") rfl
      (by
        intro item h
        simp only [List.mem_cons, List.not_mem_nil, or_false] at h
        subst h
        exact ⟨"closed", rfl⟩)
      rfl⟩

/-! ## Claim C9: the non-advance comment ends with the advance-path outcome
sentence -/

/-- Claim C9: on the merge path with at least one unmerged linked pull
request, no tracker update happens, the single comment lists the unmerged
pull request found before the short-circuit, yet it ends with the same
outcome sentence as the advance path — `outcomeMessage` with the empty
action — which reads the bug "has been moved to" the post-merge state with
no negation. -/
theorem c9_unmerged_outcome_sentence (e : event) (o o2 : Oracles)
    (options : BugzillaBranchOptions) (endpoint : String)
    (s : BugzillaBugState) (pre : List ExternalBug) (u : ExternalBug)
    (post : List ExternalBug) (stu : String) (prs2 : List ExternalBug)
    (hm : e.merged = true) (hmiss : e.missing = false)
    (hsam : options.stateAfterMerge = some s)
    (hg : options.validStates = none ∧ options.stateAfterValidation = none)
    (hprs : o.externalBugPRs = Except.ok (pre ++ u :: post))
    (hpre : ∀ item ∈ pre, ∃ st, prFetch e o item = Except.ok (true, st))
    (hu : prFetch e o u = Except.ok (false, stu))
    (hprs2 : o2.externalBugPRs = Except.ok prs2)
    (hall2 : ∀ item ∈ prs2, ∃ st, prFetch e o2 item = Except.ok (true, st))
    (hupd2 : o2.updateBugResult = Except.ok ()) :
    (∃ p, (handle e o options endpoint).1 =
        [Effect.createComment e.org e.repo e.number
          (p ++ outcomeMessage e endpoint s (""))] ∧
      ∃ q r, p = q ++ prLink u ++ r) ∧
    (∃ p2, (handle e o2 options endpoint).1 =
      [Effect.updateBugCall e.bugId s.asBugUpdate,
        Effect.createComment e.org e.repo e.number
          (p2 ++ outcomeMessage e endpoint s (""))]) ∧
    outcomeMessage e endpoint s ("") =
      bugLinkStr endpoint e.bugId ++
        (" has been moved to the " ++ (s.display ++ " state.")) := by
  have hh : ∀ o3 : Oracles, handle e o3 options endpoint =
      handleMerge e o3 options endpoint := by
    intro o3
    unfold handle
    rw [hm]
    simp
  refine ⟨?_, ?_, ?_⟩
  · rw [hh o]
    unfold handleMerge
    rw [hsam]
    simp only [hmiss, Bool.false_eq_true, if_false]
    rw [mergeGuard_ok e o options endpoint s (Or.inl hg), hprs]
    simp only
    rw [classifyPRs_first_unmerged e o endpoint pre u post stu hpre hu]
    simp only [Bool.false_eq_true, if_false]
    refine ⟨mergedMessage pre ("Some") ++ " " ++ unmergedMessage [(u, stu)] ++
      "\n", ?_, ?_⟩
    · simp [commentEffect, String.append_assoc]
    · refine ⟨mergedMessage pre ("Some") ++ " " ++
        "The following pull requests linked via external trackers have not merged:" ++
        "\n * ", " is " ++ stu ++ "\n", ?_⟩
      simp only [unmergedMessage, List.map_cons, List.map_nil,
        String.intercalate, String.intercalate.go]
      simp only [String.append_assoc]
  · rw [hh o2]
    unfold handleMerge
    rw [hsam]
    simp only [hmiss, Bool.false_eq_true, if_false]
    rw [mergeGuard_ok e o2 options endpoint s (Or.inl hg), hprs2]
    simp only
    rw [classifyPRs_all_merged e o2 endpoint prs2 hall2]
    simp only [hupd2]
    exact ⟨mergedMessage prs2 ("All") ++ " ",
      by simp [commentEffect, String.append_assoc]⟩
  · unfold outcomeMessage
    simp only [String.append_assoc, String.empty_append]
    refine congrArg (fun z => bugLinkStr endpoint e.bugId ++ z) ?_
    rw [← String.append_assoc]
    exact congrArg (fun z => z ++ (s.display ++ " state.")) (by decide)

/-- Witness for C9 on the concrete one-unmerged and all-merged worlds. -/
theorem c9_unmerged_outcome_sentence_witness :
    (∃ p, (handle evM orcOneUnmerged optsMerge ("ep")).1 =
        [Effect.createComment evM.org evM.repo evM.number
          (p ++ outcomeMessage evM ("ep") stateM (""))] ∧
      ∃ q r, p = q ++ prLink extbug2 ++ r) ∧
    outcomeMessage evM ("ep") stateM ("") =
      bugLinkStr ("ep") evM.bugId ++
        (" has been moved to the " ++ (stateM.display ++ " state.")) := by
  have h := c9_unmerged_outcome_sentence evM orcOneUnmerged orcAllMerged
    optsMerge ("ep") stateM [extbug1] extbug2 [] ("open")
    [extbug1, extbug2] rfl rfl rfl ⟨rfl, rfl⟩ rfl
    (by
      intro item hmem
      simp only [List.mem_cons, List.not_mem_nil, or_false] at hmem
      subst hmem
      exact ⟨"closed", rfl⟩)
    rfl rfl
    (by
      intro item hmem
      simp only [List.mem_cons, List.not_mem_nil, or_false] at hmem
      rcases hmem with hmem | hmem
      · subst hmem; exact ⟨"closed", rfl⟩
      · subst hmem; exact ⟨"closed", rfl⟩)
    rfl
  exact ⟨h.1, h.2.2⟩

/-! ## Claim C8: failures fetching or updating the bug short-circuit but
still comment, and are not fatal -/

/-- Claim C8: a failure fetching the authoritative bug (validation or merge
path) or updating the bug's state (validation or merge path) short-circuits
the remaining validation/merge logic — no label calls, no further tracker
calls — yet the handler posts exactly one comment built by `formatError`
from the attempted action and the underlying error, and the handler's
returned error is exactly the comment-posting result, so the failure is not
propagated when posting succeeds. -/
theorem c8_error_propagation :
    (∀ (e : event) (o : Oracles) (options : BugzillaBranchOptions)
        (endpoint err : String),
      e.merged = false → e.missing = false →
      o.getBug = Except.error err →
      handle e o options endpoint =
        ([commentEffect e (formatError ("searching") endpoint e.bugId err)],
          commentResult o)) ∧
    (∀ (e : event) (o : Oracles) (options : BugzillaBranchOptions)
        (endpoint : String) (s : BugzillaBugState) (bug : Bug)
        (err : String),
      e.merged = false → e.missing = false →
      o.getBug = Except.ok (some bug) →
      options.dependentBugStates = none →
      options.dependentBugTargetRelease = none →
      (validateBug bug [] options endpoint).valid = true →
      options.stateAfterValidation = some s →
      o.updateBugResult = Except.error err →
      handle e o options endpoint =
        ([Effect.updateBugCall e.bugId s.asBugUpdate,
          commentEffect e
            (formatError ("updating to the " ++ s.display ++ " state")
              endpoint e.bugId err)], commentResult o)) ∧
    (∀ (e : event) (o : Oracles) (options : BugzillaBranchOptions)
        (endpoint : String) (s : BugzillaBugState) (err : String),
      e.merged = true → e.missing = false →
      options.stateAfterMerge = some s →
      ¬(options.validStates = none ∧ options.stateAfterValidation = none) →
      o.getBug = Except.error err →
      handle e o options endpoint =
        ([commentEffect e (formatError ("searching") endpoint e.bugId err)],
          commentResult o)) ∧
    (∀ (e : event) (o : Oracles) (options : BugzillaBranchOptions)
        (endpoint : String) (s : BugzillaBugState)
        (prs : List ExternalBug) (err : String),
      e.merged = true → e.missing = false →
      options.stateAfterMerge = some s →
      options.validStates = none → options.stateAfterValidation = none →
      o.externalBugPRs = Except.ok prs →
      (∀ item ∈ prs, ∃ st, prFetch e o item = Except.ok (true, st)) →
      o.updateBugResult = Except.error err →
      handle e o options endpoint =
        ([Effect.updateBugCall e.bugId s.asBugUpdate,
          commentEffect e
            (formatError ("updating to the " ++ s.display ++ " state")
              endpoint e.bugId err)], commentResult o)) ∧
    (∀ o : Oracles, o.createCommentResult = Except.ok () →
      commentResult o = none) := by
  refine ⟨?_, ?_, ?_, ?_, ?_⟩
  · intro e o options endpoint err hm hmiss hgb
    unfold handle
    simp only [hm, Bool.false_eq_true, if_false, hmiss]
    rw [hgb]
  · intro e o options endpoint s bug err hm hmiss hgb hdbs hdtr hv hsav hupd
    unfold handle
    simp only [hm, Bool.false_eq_true, if_false, hmiss]
    rw [hgb]
    have hdeps : fetchDependents o options bug = Except.ok [] := by
      unfold fetchDependents
      rw [if_neg]
      simp [hdbs, hdtr]
    simp only
    rw [hdeps]
    simp only [hv, if_true]
    unfold validBranch validPre stageValidationUpdate
    rw [hsav]
    simp only [hupd]
  · intro e o options endpoint s err hm hmiss hsam hg hgb
    unfold handle
    rw [hm]
    simp only [if_true]
    unfold handleMerge
    rw [hsam]
    simp only [hmiss, Bool.false_eq_true, if_false]
    unfold mergeGuard
    rw [if_neg hg, hgb]
  · intro e o options endpoint s prs err hm hmiss hsam hvs hsv hprs hall hupd
    unfold handle
    rw [hm]
    simp only [if_true]
    unfold handleMerge
    rw [hsam]
    simp only [hmiss, Bool.false_eq_true, if_false]
    rw [mergeGuard_ok e o options endpoint s (Or.inl ⟨hvs, hsv⟩), hprs]
    simp only
    rw [classifyPRs_all_merged e o endpoint prs hall]
    simp only [hupd]
    simp
  · intro o h
    unfold commentResult
    rw [h]

/-- Witness for C8: concrete fetch-failure and update-failure runs, each
ending in one formatted error comment and a nil returned error. -/
theorem c8_error_propagation_witness :
    handle ev0 orcFetchErr opts0 ("ep") =
      ([commentEffect ev0 (formatError ("searching") ("ep") ev0.bugId
        ("boom"))], none) ∧
    handle ev0 orcUpdateErr optsSAV ("ep") =
      ([Effect.updateBugCall ev0.bugId stateM.asBugUpdate,
        commentEffect ev0
          (formatError ("updating to the " ++ stateM.display ++ " state")
            ("ep") ev0.bugId ("boom"))], none) ∧
    commentResult orcFetchErr = none := by
  refine ⟨?_, ?_, ?_⟩
  · exact c8_error_propagation.1 ev0 orcFetchErr opts0 ("ep") ("boom") rfl rfl
      rfl
  · exact c8_error_propagation.2.1 ev0 orcUpdateErr optsSAV ("ep") stateM bug0
      ("boom") rfl rfl rfl rfl rfl (by decide) rfl rfl
  · exact c8_error_propagation.2.2.2.2 orcFetchErr rfl

/-! ## Claim C10: QA-assignment skip without a usable contact email -/

theorem validPre_ok (e : event) (o : Oracles)
    (options : BugzillaBranchOptions) (endpoint : String) (ch : Bool)
    (hupd : o.updateBugResult = Except.ok ())
    (hext : o.addExternalBugResult = Except.ok ch) :
    ∃ fx resp, validPre e o options endpoint = Except.ok (fx, resp) ∧
      ∀ f ∈ fx, f.isEmailQuery = false := by
  unfold validPre stageValidationUpdate stageExternalLink
  cases hsv : options.stateAfterValidation with
  | none =>
    cases hal : options.addExternalLink with
    | none => exact ⟨[], _, rfl, by simp⟩
    | some b =>
      cases b with
      | false => exact ⟨[], _, rfl, by simp⟩
      | true =>
        rw [hext]
        refine ⟨[Effect.addExternalBugCall e.bugId e.org e.repo e.number], _,
          rfl, ?_⟩
        intro f hf
        simp only [List.mem_cons, List.not_mem_nil, or_false,
          List.mem_singleton] at hf
        subst hf
        rfl
  | some s =>
    rw [hupd]
    cases hal : options.addExternalLink with
    | none =>
      refine ⟨[Effect.updateBugCall e.bugId s.asBugUpdate], _, rfl, ?_⟩
      intro f hf
      simp only [List.mem_singleton] at hf
      subst hf
      rfl
    | some b =>
      cases b with
      | false =>
        refine ⟨[Effect.updateBugCall e.bugId s.asBugUpdate], _, rfl, ?_⟩
        intro f hf
        simp only [List.mem_singleton] at hf
        subst hf
        rfl
      | true =>
        rw [hext]
        refine ⟨[Effect.updateBugCall e.bugId s.asBugUpdate,
          Effect.addExternalBugCall e.bugId e.org e.repo e.number], _, rfl, ?_⟩
        intro f hf
        simp only [List.mem_cons, List.not_mem_nil, or_false] at hf
        rcases hf with hf | hf <;> subst hf <;> rfl

theorem labelKindEffects_no_emailQuery (e : event) (label : String)
    (has needs : Bool) :
    ∀ f ∈ labelKindEffects e label has needs, f.isEmailQuery = false := by
  intro f hf
  unfold labelKindEffects at hf
  split at hf
  · simp only [List.mem_singleton] at hf
    subst hf
    rfl
  · split at hf
    · simp only [List.mem_singleton] at hf
      subst hf
      rfl
    · exact absurd hf (List.not_mem_nil f)

theorem labelEffects_no_emailQuery (e : event) (a b c d : Bool) :
    ∀ f ∈ labelEffects e a b c d, f.isEmailQuery = false := by
  intro f hf
  rcases List.mem_append.mp hf with hf | hf
  · exact labelKindEffects_no_emailQuery e validBugLabel a c f hf
  · exact labelKindEffects_no_emailQuery e invalidBugLabel b d f hf

/-- Claim C10: on the QA-assignment path with a valid bug whose record has
no QA-contact detail, or whose contact email is empty, no GitHub directory
query is issued; the comment is the non-assign verdict comment with a skip
note appended, and the trace is otherwise identical to the run of the same
event without the assign flag — same validation-path calls and same label
reconciliation. -/
theorem c10_qa_skip (e : event) (o : Oracles)
    (options : BugzillaBranchOptions) (endpoint : String) (bug : Bug)
    (ch : Bool)
    (hm : e.merged = false) (hmiss : e.missing = false)
    (hassign : e.assign = true)
    (hgb : o.getBug = Except.ok (some bug))
    (hdbs : options.dependentBugStates = none)
    (hdtr : options.dependentBugTargetRelease = none)
    (hv : (validateBug bug [] options endpoint).valid = true)
    (hupd : o.updateBugResult = Except.ok ())
    (hext : o.addExternalBugResult = Except.ok ch)
    (hqa : bug.qaContactDetail = none ∨
      ∃ qa, bug.qaContactDetail = some qa ∧ qa.email = "") :
    ∃ fx resp note,
      handle e o options endpoint =
        (fx ++ labelEffects e (labelFlags o.issueLabels).1
            (labelFlags o.issueLabels).2 true false ++
          [commentEffect e (resp ++ note)], commentResult o) ∧
      handle { e with assign := false } o options endpoint =
        (fx ++ labelEffects { e with assign := false }
            (labelFlags o.issueLabels).1 (labelFlags o.issueLabels).2 true
            false ++
          [commentEffect { e with assign := false } resp],
          commentResult o) ∧
      (∀ f ∈ (handle e o options endpoint).1, f.isEmailQuery = false) ∧
      (bug.qaContactDetail = none →
        note = bugLinkStr endpoint e.bugId ++
          " does not have a QA contact, skipping assignment") ∧
      (∀ qa, bug.qaContactDetail = some qa → qa.email = "" →
        note = "QA contact for " ++ bugLinkStr endpoint e.bugId ++
          " does not have a listed email, skipping assignment") := by
  obtain ⟨fx, resp0, hvp, hfx⟩ :=
    validPre_ok e o options endpoint ch hupd hext
  have hdeps : fetchDependents o options bug = Except.ok [] := by
    unfold fetchDependents
    rw [if_neg]
    simp [hdbs, hdtr]
  have hvp' : validPre { e with assign := false } o options endpoint =
      Except.ok (fx, resp0) := hvp
  rcases hqa with hnone | ⟨qa, hsome, hemail⟩
  · refine ⟨fx, resp0 ++
      detailsSection (validateBug bug [] options endpoint).validations,
      bugLinkStr endpoint e.bugId ++
        " does not have a QA contact, skipping assignment", ?_, ?_, ?_, ?_, ?_⟩
    · unfold handle
      simp only [hm, Bool.false_eq_true, if_false, hmiss]
      rw [hgb]
      simp only
      rw [hdeps]
      simp only [hv, if_true]
      unfold validBranch
      rw [hvp]
      simp only
      unfold stageAssign
      simp only [hassign, if_true, hnone]
      unfold finishWithLabels
      simp [String.append_assoc]
    · unfold handle
      simp only [hm, Bool.false_eq_true, if_false, hmiss]
      rw [hgb]
      simp only
      rw [hdeps]
      simp only [hv, if_true]
      unfold validBranch
      have hvpA := hvp'
      simp only [hm, hmiss] at hvpA
      rw [hvpA]
      simp only
      unfold stageAssign
      simp only [if_false]
      unfold finishWithLabels
      rfl
    · unfold handle
      simp only [hm, Bool.false_eq_true, if_false, hmiss]
      rw [hgb]
      simp only
      rw [hdeps]
      simp only [hv, if_true]
      unfold validBranch
      rw [hvp]
      simp only
      unfold stageAssign
      simp only [hassign, if_true, hnone]
      unfold finishWithLabels
      intro f hf
      simp only [List.mem_append, List.mem_singleton] at hf
      rcases hf with (hf | hf) | hf
      · exact hfx f hf
      · exact labelEffects_no_emailQuery _ _ _ _ _ f hf
      · subst hf
        rfl
    · intro _
      rfl
    · intro qa' hqa' _
      rw [hnone] at hqa'
      exact Option.noConfusion hqa'
  · refine ⟨fx, resp0 ++
      detailsSection (validateBug bug [] options endpoint).validations,
      "QA contact for " ++ bugLinkStr endpoint e.bugId ++
        " does not have a listed email, skipping assignment",
      ?_, ?_, ?_, ?_, ?_⟩
    · unfold handle
      simp only [hm, Bool.false_eq_true, if_false, hmiss]
      rw [hgb]
      simp only
      rw [hdeps]
      simp only [hv, if_true]
      unfold validBranch
      rw [hvp]
      simp only
      unfold stageAssign
      simp only [hassign, if_true, hsome, hemail, if_true]
      unfold finishWithLabels
      simp [String.append_assoc]
    · unfold handle
      simp only [hm, Bool.false_eq_true, if_false, hmiss]
      rw [hgb]
      simp only
      rw [hdeps]
      simp only [hv, if_true]
      unfold validBranch
      have hvpA := hvp'
      simp only [hm, hmiss] at hvpA
      rw [hvpA]
      simp only
      unfold stageAssign
      simp only [if_false]
      unfold finishWithLabels
      rfl
    · unfold handle
      simp only [hm, Bool.false_eq_true, if_false, hmiss]
      rw [hgb]
      simp only
      rw [hdeps]
      simp only [hv, if_true]
      unfold validBranch
      rw [hvp]
      simp only
      unfold stageAssign
      simp only [hassign, if_true, hsome, hemail, if_true]
      unfold finishWithLabels
      intro f hf
      simp only [List.mem_append, List.mem_singleton] at hf
      rcases hf with (hf | hf) | hf
      · exact hfx f hf
      · exact labelEffects_no_emailQuery _ _ _ _ _ f hf
      · subst hf
        rfl
    · intro hqn
      rw [hqn] at hsome
      exact Option.noConfusion hsome
    · intro qa' hqa' _
      rfl

/-- Witness for C10: on a concrete assign-qa run against a bug without a QA
contact, the trace contains zero directory queries. -/
theorem c10_qa_skip_witness :
    (handle evAssign orcAllMerged opts0 ("ep")).1.countP
      Effect.isEmailQuery = 0 := by
  obtain ⟨fx, resp, note, h1, h2, h3, h4, h5⟩ :=
    c10_qa_skip evAssign orcAllMerged opts0 ("ep") bug0 true rfl rfl rfl rfl
      rfl rfl (by decide) rfl rfl (Or.inl rfl)
  rw [List.countP_eq_zero]
  intro f hf
  simp [h3 f hf]

end Bugzilla
